import Mathlib

/-!
Shallow embedding of the 3D SVG rendering pipeline
(src/lib/math.ts, src/lib/primitives.ts and the renderer evolutions found
in the repository) over exact rationals.

JS numbers are modelled as rationals.  The transcendental functions of the
JS Math library (sin, cos, sqrt and the constant PI) are a parameter of the
embedding, collected in an `Env` structure: every definition that uses them
takes the environment explicitly, so all definitions stay computable and
can be evaluated on concrete inputs by instantiating the environment.
The global Math.random stream is modelled as an explicit sequence of
rationals threaded to the one generator that consumes it.
-/

namespace Epic3D

/-- Vector3 from src/types/engine.ts: a record of three numbers. -/
structure Vec3 where
  x : ℚ
  y : ℚ
  z : ℚ
deriving DecidableEq, Repr

/-- Vector2 from src/types/engine.ts, as produced by `project`: screen
coordinates plus the perspective scale and the camera-space z. -/
structure Vec2P where
  x : ℚ
  y : ℚ
  scale : ℚ
  z : ℚ
deriving DecidableEq, Repr

/-- Environment modelling the JS Math library: the transcendental operations
the source calls.  `sqrt_zero` records the IEEE fact Math.sqrt(0) = 0, the
only law of the library the proofs rely on. -/
structure Env where
  sin : ℚ → ℚ
  cos : ℚ → ℚ
  sqrt : ℚ → ℚ
  pi : ℚ
  sqrt_zero : sqrt 0 = 0

-- Vector operations from src/lib/math.ts

/-- add from src/lib/math.ts. -/
def add (a b : Vec3) : Vec3 := ⟨a.x + b.x, a.y + b.y, a.z + b.z⟩

/-- subtract from src/lib/math.ts. -/
def subtract (a b : Vec3) : Vec3 := ⟨a.x - b.x, a.y - b.y, a.z - b.z⟩

/-- multiply (vector by scalar) from src/lib/math.ts. -/
def multiply (v : Vec3) (s : ℚ) : Vec3 := ⟨v.x * s, v.y * s, v.z * s⟩

/-- divide (vector by scalar) from src/lib/math.ts.  Callers in the source
only divide by nonzero scalars (normalize guards the zero length). -/
def divide (v : Vec3) (s : ℚ) : Vec3 := ⟨v.x / s, v.y / s, v.z / s⟩

/-- dot from src/lib/math.ts. -/
def dot (a b : Vec3) : ℚ := a.x * b.x + a.y * b.y + a.z * b.z

/-- cross from src/lib/math.ts. -/
def cross (a b : Vec3) : Vec3 :=
  ⟨a.y * b.z - a.z * b.y, a.z * b.x - a.x * b.z, a.x * b.y - a.y * b.x⟩

/-- length from src/lib/math.ts: Math.sqrt of the squared norm. -/
def length (env : Env) (v : Vec3) : ℚ := env.sqrt (v.x * v.x + v.y * v.y + v.z * v.z)

/-- normalize from src/lib/math.ts: returns the zero vector when the length
is exactly zero, otherwise divides by the length. -/
def normalize (env : Env) (v : Vec3) : Vec3 :=
  let len := length env v
  if len = 0 then ⟨0, 0, 0⟩ else divide v len

/-- rotateX from src/lib/math.ts. -/
def rotateX (env : Env) (v : Vec3) (angle : ℚ) : Vec3 :=
  let c := env.cos angle
  let s := env.sin angle
  ⟨v.x, v.y * c - v.z * s, v.y * s + v.z * c⟩

/-- rotateY from src/lib/math.ts. -/
def rotateY (env : Env) (v : Vec3) (angle : ℚ) : Vec3 :=
  let c := env.cos angle
  let s := env.sin angle
  ⟨v.x * c + v.z * s, v.y, -v.x * s + v.z * c⟩

/-- rotateZ from src/lib/math.ts. -/
def rotateZ (env : Env) (v : Vec3) (angle : ℚ) : Vec3 :=
  let c := env.cos angle
  let s := env.sin angle
  ⟨v.x * c - v.y * s, v.x * s + v.y * c, v.z⟩

/-- rotateEuler from src/lib/math.ts: rotateX, then rotateY, then rotateZ. -/
def rotateEuler (env : Env) (v rotation : Vec3) : Vec3 :=
  rotateZ env (rotateY env (rotateX env v rotation.x) rotation.y) rotation.z

/-- project from src/lib/math.ts: perspective projection with the near
floor of 10 on the effective depth. -/
def project (v : Vec3) (width height fov cameraZ : ℚ) : Vec2P :=
  let zOffset := v.z + cameraZ
  let scale := if zOffset > 10 then fov / zOffset else fov / 10
  ⟨v.x * scale + width / 2, -v.y * scale + height / 2, scale, v.z⟩

/-- transformPoint from src/lib/math.ts: componentwise scale, then
rotateEuler, then translate. -/
def transformPoint (env : Env) (point position rotation scale : Vec3) : Vec3 :=
  add (rotateEuler env ⟨point.x * scale.x, point.y * scale.y, point.z * scale.z⟩ rotation) position

/-- calculateNormal from src/lib/math.ts: guards lists shorter than 3 with
the fallback normal (0,0,1), otherwise the normalized cross product of
(v1 - v0) and (v2 - v0). -/
def calculateNormal (env : Env) (verts : List Vec3) : Vec3 :=
  match verts with
  | v0 :: v1 :: v2 :: _ => normalize env (cross (subtract v1 v0) (subtract v2 v0))
  | _ => ⟨0, 0, 1⟩

/-- calculateCenter from src/lib/math.ts: componentwise sum divided by the
list length, with no guard on the length.  On the empty list the JS source
divides 0 by 0, producing NaN in every component; the embedding returns
`none` for that case (the renderer only ever calls it on faces with at
least three vertices). -/
def calculateCenter (verts : List Vec3) : Option Vec3 :=
  let sum := verts.foldl (fun acc v => ⟨acc.x + v.x, acc.y + v.y, acc.z + v.z⟩) (⟨0, 0, 0⟩ : Vec3)
  if verts.length = 0 then none
  else some (divide sum (verts.length : ℚ))

end Epic3D

namespace Epic3D

/-- Newton iteration for the floor square root, with explicit fuel so the
kernel can evaluate it. -/
def isqrtGo : ℕ → ℕ → ℕ → ℕ
  | 0, _, g => g
  | fuel + 1, n, g =>
    let g2 := (g + n / g) / 2
    if g2 < g then isqrtGo fuel n g2 else g

/-- Floor square root of a natural number (kernel-evaluable). -/
def isqrt (n : ℕ) : ℕ := if n ≤ 1 then n else isqrtGo n n (n / 2 + 1)

/-- Rational stand-in for Math.sqrt used by the concrete environments:
the floor square root of the numerator over the floor square root of the
denominator.  It is exact on perfect squares (all the proofs evaluate it
only where its value is irrelevant or exact). -/
def ratSqrt (q : ℚ) : ℚ := (isqrt q.num.toNat : ℚ) / (isqrt q.den : ℚ)

/-- Concrete environment used for evaluation: sin is constantly 0 and cos
constantly 1 (their values at angle 0), sqrt is the exact-on-squares
rational square root. -/
def env₀ : Env where
  sin := fun _ => 0
  cos := fun _ => 1
  sqrt := ratSqrt
  pi := 0
  sqrt_zero := by with_unfolding_all decide

/-- Second concrete environment whose sine is injective, used to observe
time dependence of the animated generators. -/
def envId : Env where
  sin := fun q => q
  cos := fun _ => 1
  sqrt := ratSqrt
  pi := 0
  sqrt_zero := by with_unfolding_all decide

-- JS string and number helpers used by the color pipeline

/-- Check for an ASCII hexadecimal digit, as consumed by parseInt with
radix 16. -/
def isHexDigit (c : Char) : Bool :=
  (('0' ≤ c && c ≤ '9') || ('a' ≤ c && c ≤ 'f') || ('A' ≤ c && c ≤ 'F'))

/-- Numeric value of a hexadecimal digit. -/
def hexVal (c : Char) : ℕ :=
  if '0' ≤ c && c ≤ '9' then c.toNat - '0'.toNat
  else if 'a' ≤ c && c ≤ 'f' then c.toNat - 'a'.toNat + 10
  else c.toNat - 'A'.toNat + 10

/-- Longest hexadecimal-digit prefix of a character list, as a value. -/
def hexPrefixVal : List Char → ℕ → Option ℕ
  | [], acc => some acc
  | c :: cs, acc => if isHexDigit c then hexPrefixVal cs (acc * 16 + hexVal c) else some acc

/-- JS parseInt(s, 16): skip leading whitespace, an optional sign, an
optional 0x/0X prefix, then parse the longest hexadecimal-digit prefix;
`none` models the NaN result when no digit is found. -/
def jsParseIntHex (s : String) : Option ℤ :=
  let cs := s.toList.dropWhile (fun c => c = ' ' || c = '\t' || c = '\n' || c = '\r')
  let (sign, cs) : ℤ × List Char :=
    match cs with
    | '-' :: rest => (-1, rest)
    | '+' :: rest => (1, rest)
    | _ => (1, cs)
  let cs :=
    match cs with
    | '0' :: 'x' :: rest => rest
    | '0' :: 'X' :: rest => rest
    | _ => cs
  match cs with
  | c :: rest =>
    if isHexDigit c then (hexPrefixVal rest (hexVal c)).map (fun n => sign * n) else none
  | [] => none

/-- JS String.replace with a string pattern replaces only the first
occurrence; this is color.replace of the hash character with the empty
string. -/
def removeFirstHash (s : String) : String :=
  let rec go : List Char → List Char
    | [] => []
    | c :: cs => if c = '#' then cs else c :: go cs
  ⟨go s.toList⟩

/-- JS substring(a, b) on a string, as the character range. -/
def jsSubstring (s : String) (a b : ℕ) : String :=
  ⟨(s.toList.drop a).take (b - a)⟩

/-- JS Math.round: round half toward positive infinity. -/
def jsRound (q : ℚ) : ℤ := ⌊q + 1/2⌋

/-- Decimal rendering of the integer-or-NaN values interpolated into the
rgb template; `none` renders as the string NaN, as JS prints it. -/
def numOrNaNToString : Option ℤ → String
  | none => "NaN"
  | some i => toString i

/-- Injective stand-in for the JS number-to-string conversion interpolated
into the hsl color templates: integers print as in JS; non-integers print
as num/den, so that string equality coincides with numeric equality. -/
def jsNumToString (q : ℚ) : String :=
  if q.den = 1 then toString q.num else toString q.num ++ "/" ++ toString q.den

-- Mesh generators from src/lib/primitives.ts (the revision with the
-- volumetric kinds and the time parameter)

/-- PrimitiveType from src/types/engine.ts. -/
inductive PrimitiveType where
  | box | sphere | cylinder | torus | cone | pyramid | metaballs | fluidBlob | cloudVolume
deriving DecidableEq, Repr

/-- Face from src/types/engine.ts: the vertex loop and the base color
string (the optional objectId and normal fields are never set by the
generators). -/
structure Face where
  verts : List Vec3
  color : String
deriving DecidableEq, Repr

/-- generateBox from src/lib/primitives.ts: 8 corners, 6 quad faces. -/
def generateBox (size : ℚ) : List Face :=
  let s := size / 2
  let v0 : Vec3 := ⟨-s, -s, -s⟩
  let v1 : Vec3 := ⟨ s, -s, -s⟩
  let v2 : Vec3 := ⟨ s,  s, -s⟩
  let v3 : Vec3 := ⟨-s,  s, -s⟩
  let v4 : Vec3 := ⟨-s, -s,  s⟩
  let v5 : Vec3 := ⟨ s, -s,  s⟩
  let v6 : Vec3 := ⟨ s,  s,  s⟩
  let v7 : Vec3 := ⟨-s,  s,  s⟩
  [ ⟨[v4, v5, v6, v7], "#00ffff"⟩,
    ⟨[v1, v0, v3, v2], "#00cccc"⟩,
    ⟨[v7, v6, v2, v3], "#00eeee"⟩,
    ⟨[v0, v1, v5, v4], "#00aaaa"⟩,
    ⟨[v5, v1, v2, v6], "#00dddd"⟩,
    ⟨[v0, v4, v7, v3], "#00bbbb"⟩ ]

/-- generateSphere from src/lib/primitives.ts: latitude/longitude bands,
triangles at the poles, quads elsewhere, hsl color gradient. -/
def generateSphere (env : Env) (radius : ℚ) (segments : ℕ) : List Face :=
  (List.range segments).flatMap fun (lat : ℕ) =>
    (List.range segments).map fun (lon : ℕ) =>
      let theta1 := ((lat : ℚ) / segments) * env.pi
      let theta2 := (((lat : ℚ) + 1) / segments) * env.pi
      let phi1 := ((lon : ℚ) / segments) * 2 * env.pi
      let phi2 := (((lon : ℚ) + 1) / segments) * 2 * env.pi
      let v1 : Vec3 := ⟨radius * env.sin theta1 * env.cos phi1,
                        radius * env.cos theta1,
                        radius * env.sin theta1 * env.sin phi1⟩
      let v2 : Vec3 := ⟨radius * env.sin theta1 * env.cos phi2,
                        radius * env.cos theta1,
                        radius * env.sin theta1 * env.sin phi2⟩
      let v3 : Vec3 := ⟨radius * env.sin theta2 * env.cos phi2,
                        radius * env.cos theta2,
                        radius * env.sin theta2 * env.sin phi2⟩
      let v4 : Vec3 := ⟨radius * env.sin theta2 * env.cos phi1,
                        radius * env.cos theta2,
                        radius * env.sin theta2 * env.sin phi1⟩
      let hue := ((lon : ℚ) / segments) * 60 + 160
      let lightness := 40 + ((lat : ℚ) / segments) * 20
      let color := "hsl(" ++ jsNumToString hue ++ ", 100%, " ++ jsNumToString lightness ++ "%)"
      if lat = 0 then ⟨[v1, v3, v4], color⟩
      else if lat = segments - 1 then ⟨[v1, v2, v3], color⟩
      else ⟨[v1, v2, v3, v4], color⟩

/-- generateCylinder from src/lib/primitives.ts: per angular segment a side
quad, a top-cap triangle and a bottom-cap triangle, in that order. -/
def generateCylinder (env : Env) (radius height : ℚ) (segments : ℕ) : List Face :=
  let h := height / 2
  let topCenter : Vec3 := ⟨0, h, 0⟩
  let bottomCenter : Vec3 := ⟨0, -h, 0⟩
  (List.range segments).flatMap fun (i : ℕ) =>
    let angle1 := ((i : ℚ) / segments) * 2 * env.pi
    let angle2 := (((i : ℚ) + 1) / segments) * 2 * env.pi
    let x1 := radius * env.cos angle1
    let z1 := radius * env.sin angle1
    let x2 := radius * env.cos angle2
    let z2 := radius * env.sin angle2
    let sideColor := "hsl(" ++ jsNumToString (170 + ((i : ℚ) / segments) * 30) ++ ", 100%, 50%)"
    [ ⟨[⟨x1, h, z1⟩, ⟨x2, h, z2⟩, ⟨x2, -h, z2⟩, ⟨x1, -h, z1⟩], sideColor⟩,
      ⟨[topCenter, ⟨x2, h, z2⟩, ⟨x1, h, z1⟩], "#00ffee"⟩,
      ⟨[bottomCenter, ⟨x1, -h, z1⟩, ⟨x2, -h, z2⟩], "#00ccbb"⟩ ]

/-- generateTorus from src/lib/primitives.ts: two angular loops with the
deliberately reversed vertex order for outward-facing normals. -/
def generateTorus (env : Env) (majorRadius minorRadius : ℚ) (segments : ℕ) : List Face :=
  (List.range segments).flatMap fun (i : ℕ) =>
    (List.range segments).map fun (j : ℕ) =>
      let theta1 := ((i : ℚ) / segments) * 2 * env.pi
      let theta2 := (((i : ℚ) + 1) / segments) * 2 * env.pi
      let phi1 := ((j : ℚ) / segments) * 2 * env.pi
      let phi2 := (((j : ℚ) + 1) / segments) * 2 * env.pi
      let getVertex := fun (theta phi : ℚ) =>
        (⟨(majorRadius + minorRadius * env.cos phi) * env.cos theta,
          minorRadius * env.sin phi,
          (majorRadius + minorRadius * env.cos phi) * env.sin theta⟩ : Vec3)
      let color := "hsl(" ++ jsNumToString (((i : ℚ) / segments) * 40 + 180) ++ ", 100%, "
        ++ jsNumToString (45 + ((j : ℚ) / segments) * 15) ++ "%)"
      ⟨[getVertex theta1 phi2, getVertex theta2 phi2, getVertex theta2 phi1,
        getVertex theta1 phi1], color⟩

/-- generateCone from src/lib/primitives.ts: per angular segment a side
triangle from the apex and a base triangle from the base center. -/
def generateCone (env : Env) (radius height : ℚ) (segments : ℕ) : List Face :=
  let h := height / 2
  let apex : Vec3 := ⟨0, h, 0⟩
  let baseCenter : Vec3 := ⟨0, -h, 0⟩
  (List.range segments).flatMap fun (i : ℕ) =>
    let angle1 := ((i : ℚ) / segments) * 2 * env.pi
    let angle2 := (((i : ℚ) + 1) / segments) * 2 * env.pi
    let x1 := radius * env.cos angle1
    let z1 := radius * env.sin angle1
    let x2 := radius * env.cos angle2
    let z2 := radius * env.sin angle2
    let sideColor := "hsl(" ++ jsNumToString (175 + ((i : ℚ) / segments) * 25) ++ ", 100%, 50%)"
    [ ⟨[apex, ⟨x2, -h, z2⟩, ⟨x1, -h, z1⟩], sideColor⟩,
      ⟨[baseCenter, ⟨x1, -h, z1⟩, ⟨x2, -h, z2⟩], "#00bbaa"⟩ ]

/-- generatePyramid from src/lib/primitives.ts: apex plus base quad. -/
def generatePyramid (size height : ℚ) : List Face :=
  let s := size / 2
  let h := height / 2
  let apex : Vec3 := ⟨0, h, 0⟩
  let b0 : Vec3 := ⟨-s, -h, -s⟩
  let b1 : Vec3 := ⟨ s, -h, -s⟩
  let b2 : Vec3 := ⟨ s, -h,  s⟩
  let b3 : Vec3 := ⟨-s, -h,  s⟩
  [ ⟨[apex, b2, b3], "#00ffdd"⟩,
    ⟨[apex, b1, b2], "#00eedd"⟩,
    ⟨[apex, b0, b1], "#00ddcc"⟩,
    ⟨[apex, b3, b0], "#00ccbb"⟩,
    ⟨[b0, b3, b2, b1], "#00aabb"⟩ ]

/-- Blob record of generateMetaballs. -/
structure Blob where
  x : ℚ
  y : ℚ
  z : ℚ
  radius : ℚ

/-- Scalar field of generateMetaballs: 1 minus the sum over blobs of
radius squared over squared distance (negative inside the surface).  The
JS source yields Infinity when a sample coincides with a blob center; the
rational convention r2 / 0 = 0 stands in for that measure-zero case, which
no theorem in this file touches. -/
def sdfMetaballs (blobs : List Blob) (px py pz : ℚ) : ℚ :=
  1 - blobs.foldl (fun sum blob =>
    let dx := px - blob.x
    let dy := py - blob.y
    let dz := pz - blob.z
    sum + (blob.radius * blob.radius) / (dx * dx + dy * dy + dz * dz)) 0

/-- generateMetaballs from src/lib/primitives.ts: animated blob field
sampled over a 12-cell grid; a boundary cell emits one quad aligned with
the dominant axis of the central-difference gradient. -/
def generateMetaballs (env : Env) (size : ℚ) (blobCount : ℕ) (time : ℚ) : List Face :=
  let blobs : List Blob := (List.range blobCount).map fun (i : ℕ) =>
    let angle := ((i : ℚ) / blobCount) * env.pi * 2 + time * 0.5
    let radius := size * 0.3
    ⟨env.cos angle * radius * 0.6 + env.sin (time + i) * 10,
     env.sin (angle * 0.7 + time * 0.3) * radius * 0.4,
     env.sin angle * radius * 0.6 + env.cos (time * 0.8 + i) * 10,
     size * 0.25 + env.sin (time * 2 + (i : ℚ) * 0.5) * 5⟩
  let gridSize : ℕ := 12
  let step := size * 1.5 / (gridSize : ℚ)
  let offset := -size * 0.75
  (List.range gridSize).flatMap fun iz =>
    (List.range gridSize).flatMap fun iy =>
      (List.range gridSize).flatMap fun ix =>
        let x := offset + (ix : ℚ) * step
        let y := offset + (iy : ℚ) * step
        let z := offset + (iz : ℚ) * step
        let s := step
        let v000 := sdfMetaballs blobs x y z
        let v100 := sdfMetaballs blobs (x + s) y z
        let v010 := sdfMetaballs blobs x (y + s) z
        let v110 := sdfMetaballs blobs (x + s) (y + s) z
        let v001 := sdfMetaballs blobs x y (z + s)
        let v101 := sdfMetaballs blobs (x + s) y (z + s)
        let v011 := sdfMetaballs blobs x (y + s) (z + s)
        let v111 := sdfMetaballs blobs (x + s) (y + s) (z + s)
        let inside := fun (v : ℚ) => v < 0
        let hasInside := inside v000 ∨ inside v100 ∨ inside v010 ∨ inside v110 ∨
          inside v001 ∨ inside v101 ∨ inside v011 ∨ inside v111
        let hasOutside := ¬inside v000 ∨ ¬inside v100 ∨ ¬inside v010 ∨ ¬inside v110 ∨
          ¬inside v001 ∨ ¬inside v101 ∨ ¬inside v011 ∨ ¬inside v111
        if hasInside ∧ hasOutside then
          let cx := x + s / 2
          let cy := y + s / 2
          let cz := z + s / 2
          let hs := s * 0.45
          let eps : ℚ := 0.1
          let nx := sdfMetaballs blobs (cx + eps) cy cz - sdfMetaballs blobs (cx - eps) cy cz
          let ny := sdfMetaballs blobs cx (cy + eps) cz - sdfMetaballs blobs cx (cy - eps) cz
          let nz := sdfMetaballs blobs cx cy (cz + eps) - sdfMetaballs blobs cx cy (cz - eps)
          let m := env.sqrt (nx * nx + ny * ny + nz * nz)
          let nmag := if m = 0 then 1 else m
          let hue := 20 + (cy / size) * 30
          let lightness := 50 + |nx / nmag| * 20
          let color := "hsl(" ++ jsNumToString hue ++ ", 100%, " ++ jsNumToString lightness ++ "%)"
          if |nx| ≥ |ny| ∧ |nx| ≥ |nz| then
            [⟨[⟨cx, cy - hs, cz - hs⟩, ⟨cx, cy + hs, cz - hs⟩,
               ⟨cx, cy + hs, cz + hs⟩, ⟨cx, cy - hs, cz + hs⟩], color⟩]
          else if |ny| ≥ |nz| then
            [⟨[⟨cx - hs, cy, cz - hs⟩, ⟨cx + hs, cy, cz - hs⟩,
               ⟨cx + hs, cy, cz + hs⟩, ⟨cx - hs, cy, cz + hs⟩], color⟩]
          else
            [⟨[⟨cx - hs, cy - hs, cz⟩, ⟨cx + hs, cy - hs, cz⟩,
               ⟨cx + hs, cy + hs, cz⟩, ⟨cx - hs, cy + hs, cz⟩], color⟩]
        else []

/-- Particle record of generateFluidBlob. -/
structure Particle where
  x : ℚ
  y : ℚ
  z : ℚ
  r : ℚ

/-- generateFluidBlob from src/lib/primitives.ts: time-animated particle
spheroids triangulated over 8 segments. -/
def generateFluidBlob (env : Env) (size : ℚ) (particleCount : ℕ) (time : ℚ) : List Face :=
  let particles : List Particle := (List.range particleCount).map fun (i : ℕ) =>
    let phase := (i : ℚ) * 0.7 + time
    ⟨env.sin phase * size * 0.3 + env.cos (phase * 1.3) * size * 0.1,
     env.sin (phase * 0.8 + i) * size * 0.2 - size * 0.3 + env.sin (time * 2 + i) * 5,
     env.cos (phase * 0.9) * size * 0.3,
     size * 0.15 + env.sin (time + (i : ℚ) * 0.5) * 3⟩
  let segments : ℕ := 8
  particles.flatMap fun p =>
    (List.range segments).flatMap fun (lat : ℕ) =>
      (List.range segments).map fun (lon : ℕ) =>
        let theta1 := ((lat : ℚ) / segments) * env.pi
        let theta2 := (((lat : ℚ) + 1) / segments) * env.pi
        let phi1 := ((lon : ℚ) / segments) * 2 * env.pi
        let phi2 := (((lon : ℚ) + 1) / segments) * 2 * env.pi
        let getVert := fun (theta phi : ℚ) =>
          (⟨p.x + p.r * env.sin theta * env.cos phi,
            p.y + p.r * env.cos theta,
            p.z + p.r * env.sin theta * env.sin phi⟩ : Vec3)
        let hue := 200 + (p.y / size) * 30
        let lightness := 45 + ((lat : ℚ) / segments) * 20
        let color := "hsl(" ++ jsNumToString hue ++ ", 80%, " ++ jsNumToString lightness ++ "%)"
        if lat = 0 then ⟨[getVert theta1 phi1, getVert theta2 phi2, getVert theta2 phi1], color⟩
        else if lat = segments - 1 then
          ⟨[getVert theta1 phi1, getVert theta1 phi2, getVert theta2 phi2], color⟩
        else
          ⟨[getVert theta1 phi1, getVert theta1 phi2, getVert theta2 phi2,
            getVert theta2 phi1], color⟩

/-- Puff record of generateCloudVolume. -/
structure Puff where
  x : ℚ
  y : ℚ
  z : ℚ
  rx : ℚ
  ry : ℚ
  rz : ℚ

/-- generateCloudVolume from src/lib/primitives.ts.  The puff radii call
the global Math.random three times per puff; the stream of values that
those calls return is the explicit argument `rng` (call k of the run reads
rng k), which makes the hidden nondeterminism of the source visible. -/
def generateCloudVolume (env : Env) (size : ℚ) (puffCount : ℕ) (time : ℚ) (rng : ℕ → ℚ) :
    List Face :=
  let puffs : List Puff := (List.range puffCount).map fun (i : ℕ) =>
    let angle := ((i : ℚ) / puffCount) * env.pi * 2
    ⟨env.cos angle * size * 0.35 + env.sin (time * 0.5 + i) * 5,
     env.sin ((i : ℚ) * 0.8) * size * 0.15 + size * 0.1,
     env.sin angle * size * 0.3,
     size * 0.3 + rng (3 * i) * size * 0.1,
     size * 0.2 + rng (3 * i + 1) * size * 0.05,
     size * 0.25 + rng (3 * i + 2) * size * 0.1⟩
  let segments : ℕ := 10
  puffs.flatMap fun puff =>
    (List.range segments).flatMap fun (lat : ℕ) =>
      (List.range segments).map fun (lon : ℕ) =>
        let theta1 := ((lat : ℚ) / segments) * env.pi
        let theta2 := (((lat : ℚ) + 1) / segments) * env.pi
        let phi1 := ((lon : ℚ) / segments) * 2 * env.pi
        let phi2 := (((lon : ℚ) + 1) / segments) * 2 * env.pi
        let getVert := fun (theta phi : ℚ) =>
          (⟨puff.x + puff.rx * env.sin theta * env.cos phi,
            puff.y + puff.ry * env.cos theta,
            puff.z + puff.rz * env.sin theta * env.sin phi⟩ : Vec3)
        let lightness := 85 + ((lat : ℚ) / segments) * 15 - (1 - |env.cos phi1|) * 10
        let color := "hsl(210, 10%, " ++ jsNumToString lightness ++ "%)"
        if lat = 0 then ⟨[getVert theta1 phi1, getVert theta2 phi2, getVert theta2 phi1], color⟩
        else if lat = segments - 1 then
          ⟨[getVert theta1 phi1, getVert theta1 phi2, getVert theta2 phi2], color⟩
        else
          ⟨[getVert theta1 phi1, getVert theta1 phi2, getVert theta2 phi2,
            getVert theta2 phi1], color⟩

/-- generatePrimitiveFaces from src/lib/primitives.ts: dispatch on the
primitive kind with the box fallback; only the cloudVolume branch consumes
the Math.random stream. -/
def generatePrimitiveFaces (env : Env) (type : PrimitiveType) (size time : ℚ) (rng : ℕ → ℚ) :
    List Face :=
  match type with
  | .box => generateBox size
  | .sphere => generateSphere env size 16
  | .cylinder => generateCylinder env (size * 0.6) (size * 1.6) 16
  | .torus => generateTorus env (size * 0.8) (size * 0.3) 16
  | .cone => generateCone env (size * 0.8) (size * 1.6) 16
  | .pyramid => generatePyramid size (size * 1.4)
  | .metaballs => generateMetaballs env size 5 time
  | .fluidBlob => generateFluidBlob env size 8 time
  | .cloudVolume => generateCloudVolume env size 6 time rng

/-- Number of Math.random values a generator call consumes: three per puff
of the six cloudVolume puffs, zero for every other kind. -/
def randCount (type : PrimitiveType) : ℕ :=
  match type with
  | .cloudVolume => 18
  | _ => 0

/-- Advance the modelled Math.random stream by n consumed values. -/
def rngShift (rng : ℕ → ℚ) (n : ℕ) : ℕ → ℚ := fun k => rng (n + k)

-- Scene data model from src/types/engine.ts

/-- The three Light kinds of src/types/engine.ts. -/
inductive LightType where
  | ambient | directional | point
deriving DecidableEq, Repr

/-- Light from src/types/engine.ts; direction and position are optional. -/
structure Light where
  type : LightType
  color : String
  intensity : ℚ
  direction : Option Vec3
  position : Option Vec3
deriving DecidableEq, Repr

/-- Material from src/types/engine.ts; the renderer reads only color. -/
structure Material where
  id : String
  color : String
  ambient : ℚ
  diffuse : ℚ
  specular : ℚ
  shininess : ℚ
deriving DecidableEq, Repr

/-- Camera from src/types/engine.ts. -/
structure Camera where
  position : Vec3
  rotation : Vec3
  fov : ℚ
  near : ℚ
  far : ℚ
deriving DecidableEq, Repr

/-- SceneObject from src/types/engine.ts. -/
structure SceneObject where
  id : String
  name : String
  type : PrimitiveType
  position : Vec3
  rotation : Vec3
  scale : Vec3
  material : Material
  visible : Bool
  locked : Bool
deriving DecidableEq, Repr

/-- The lightingMode field of Scene. -/
inductive LightingMode where
  | day | night
deriving DecidableEq, Repr

/-- Scene from src/types/engine.ts. -/
structure Scene where
  objects : List SceneObject
  lights : List Light
  camera : Camera
  cursor3D : Vec3
  selectedObjectId : Option String
  gridVisible : Bool
  axisVisible : Bool
  lightingMode : LightingMode
deriving DecidableEq, Repr

/-- EngineConfig consumed by the renderer. -/
structure EngineConfig where
  fov : ℚ
  cameraZ : ℚ
  ambientIntensity : ℚ
  directionalIntensity : ℚ
  lightDirection : Vec3
deriving DecidableEq, Repr

/-- ProjectedFace from src/types/engine.ts, with exactly the fields the
renderer fills in. -/
structure ProjectedFace where
  verts : List Vec3
  projectedVerts : List Vec2P
  color : String
  depth : ℚ
  lightIntensity : ℚ
  objectId : String
  isSelected : Bool
deriving DecidableEq, Repr

-- Renderer from the engine module (the revision kept in src/lib/math.ts
-- after the separator, with camera pan and view-direction culling)

/-- getLightsForMode from the renderer: the two built-in light lists. -/
def getLightsForMode (mode : LightingMode) : List Light :=
  match mode with
  | .day =>
    [ ⟨.ambient, "#ffffff", 0.6, none, none⟩,
      ⟨.directional, "#ffffee", 1.0, some ⟨1, 1, 0.5⟩, none⟩ ]
  | .night =>
    [ ⟨.ambient, "#8888ff", 0.3, none, none⟩,
      ⟨.directional, "#aaaaff", 0.5, some ⟨-1, 1, 1⟩, none⟩ ]

/-- One light's contribution step in calculateLighting: ambient lights add
their intensity unconditionally; directional lights with a direction add
max(0, dot(normal, normalize(direction rotated by the negated camera
rotation))) times their intensity; any other light adds nothing. -/
def lightStep (env : Env) (normal cameraRotation : Vec3) (acc : ℚ) (light : Light) : ℚ :=
  match light.type, light.direction with
  | .ambient, _ => acc + light.intensity
  | .directional, some dir =>
    let rotatedDirection := rotateEuler env dir
      ⟨-cameraRotation.x, -cameraRotation.y, -cameraRotation.z⟩
    let normalizedDir := normalize env rotatedDirection
    acc + max 0 (dot normal normalizedDir) * light.intensity
  | .directional, none => acc
  | .point, _ => acc

/-- calculateLighting from the renderer: fold the per-light contributions
from zero, then pass the total through Math.min(1, total). -/
def calculateLighting (env : Env) (normal : Vec3) (lights : List Light)
    (cameraRotation : Vec3) : ℚ :=
  min 1 (lights.foldl (lightStep env normal cameraRotation) 0)

/-- applyLightingToColor from the renderer: strip the first hash, return
the input unchanged unless exactly 6 characters remain, otherwise parse
three hex byte fields, scale by 0.2 + intensity * 0.8, round, and build
the rgb template string.  A parse of a non-hex field gives NaN (`none`),
which prints as NaN inside the template, exactly as in JS. -/
def applyLightingToColor (color : String) (intensity : ℚ) : String :=
  let hex := removeFirstHash color
  if hex.length ≠ 6 then color
  else
    let r := jsParseIntHex (jsSubstring hex 0 2)
    let g := jsParseIntHex (jsSubstring hex 2 4)
    let b := jsParseIntHex (jsSubstring hex 4 6)
    let factor := 0.2 + intensity * 0.8
    let newR := r.map (fun n => jsRound ((n : ℚ) * factor))
    let newG := g.map (fun n => jsRound ((n : ℚ) * factor))
    let newB := b.map (fun n => jsRound ((n : ℚ) * factor))
    "rgb(" ++ numOrNaNToString newR ++ ", " ++ numOrNaNToString newG ++ ", "
      ++ numOrNaNToString newB ++ ")"

/-- Object-to-camera-space vertex chain of renderScene: object transform,
camera pan by the negated camera x/y position, camera rotation. -/
def cameraSpaceVerts (env : Env) (obj : SceneObject) (cam : Camera) (verts : List Vec3) :
    List Vec3 :=
  ((verts.map fun v => transformPoint env v obj.position obj.rotation obj.scale).map
    fun v => add v ⟨-cam.position.x, -cam.position.y, 0⟩).map
    fun v => rotateEuler env v cam.rotation

/-- The cull quantity of renderScene: the dot product of the face normal
with the normalized view direction from the camera position to the face
centroid (the camera sits at z = -cameraZ in camera space, so the vector
is the centroid plus (0, 0, cameraZ)). -/
def faceDotProduct (env : Env) (cam : Camera) (rotated : List Vec3) (center : Vec3) : ℚ :=
  dot (calculateNormal env rotated) (normalize env ⟨center.x, center.y, center.z + cam.position.z⟩)

/-- Loop body of renderScene for a single face: `none` when the face is
culled.  The unreachable `none` on an empty vertex list mirrors the fact
that every generator emits faces of three or four vertices. -/
def processFace (env : Env) (scene : Scene) (cfg : EngineConfig) (w h : ℚ)
    (obj : SceneObject) (face : Face) : Option ProjectedFace :=
  let rotated := cameraSpaceVerts env obj scene.camera face.verts
  match calculateCenter rotated with
  | none => none
  | some center =>
    if faceDotProduct env scene.camera rotated center > 0.15 then none
    else
      let normal := calculateNormal env rotated
      let lightIntensity := calculateLighting env normal scene.lights scene.camera.rotation
      some
        { verts := rotated
          projectedVerts := rotated.map fun v => project v w h cfg.fov scene.camera.position.z
          color := applyLightingToColor obj.material.color lightIntensity
          depth := center.z
          lightIntensity := lightIntensity
          objectId := obj.id
          isSelected := decide (some obj.id = scene.selectedObjectId) }

/-- One step of the object loop of renderScene: an invisible object is
skipped before generation; a visible object's faces are generated at size
50 (and time 0, the default, since this renderScene revision passes no
time) from the current Math.random stream position, processed, and
appended; the stream position advances by the number of values consumed. -/
def collectStep (env : Env) (rng : ℕ → ℚ) (scene : Scene) (cfg : EngineConfig) (w h : ℚ)
    (acc : List ProjectedFace × ℕ) (obj : SceneObject) : List ProjectedFace × ℕ :=
  if obj.visible then
    let faces := generatePrimitiveFaces env obj.type 50 0 (rngShift rng acc.2)
    (acc.1 ++ faces.filterMap (processFace env scene cfg w h obj), acc.2 + randCount obj.type)
  else acc

/-- Face collection pass of renderScene, in object order then face order. -/
def collectFaces (env : Env) (rng : ℕ → ℚ) (scene : Scene) (cfg : EngineConfig)
    (w h : ℚ) : List ProjectedFace :=
  (scene.objects.foldl (collectStep env rng scene cfg w h) ([], 0)).1

/-- Depth sort of renderScene: Array.prototype.sort with the comparator
(a, b) => b.depth - a.depth, a stable descending sort by depth (ECMA-262
requires sort stability); insertion sort from the right is stable. -/
def sortByDepthDesc (faces : List ProjectedFace) : List ProjectedFace :=
  faces.insertionSort (fun a b => b.depth ≤ a.depth)

/-- renderScene from the engine revision kept in src/lib/math.ts: collect
the projected faces of every visible object, then sort by depth, far
(largest camera-space z) first. -/
def renderScene (env : Env) (rng : ℕ → ℚ) (scene : Scene) (cfg : EngineConfig)
    (w h : ℚ) : List ProjectedFace :=
  sortByDepthDesc (collectFaces env rng scene cfg w h)

/-- The Viewport call site passes a fifth animationTime argument to the
four-parameter renderScene; JS silently drops extra arguments, so the call
reduces to renderScene without the time. -/
def renderSceneViewportCall (env : Env) (rng : ℕ → ℚ) (scene : Scene) (cfg : EngineConfig)
    (w h animationTime : ℚ) : List ProjectedFace :=
  renderScene env rng scene cfg w h

-- Renderer from the earlier engine revision (the first section of the
-- unnamed engine file): outward normal correction, normal.z culling, no
-- camera pan, ascending depth sort

/-- Camera-space vertex chain of the earlier renderScene revision: object
transform then camera rotation, with no pan step. -/
def cameraSpaceVerts0 (env : Env) (obj : SceneObject) (cam : Camera) (verts : List Vec3) :
    List Vec3 :=
  (verts.map fun v => transformPoint env v obj.position obj.rotation obj.scale).map
    fun v => rotateEuler env v cam.rotation

/-- Loop body of the earlier renderScene revision: compute the raw normal,
flip it when it points inward relative to the object's camera-space
center, cull on normal.z > 0.0001, light and project with config.cameraZ. -/
def processFace0 (env : Env) (scene : Scene) (cfg : EngineConfig) (w h : ℚ)
    (obj : SceneObject) (face : Face) : Option ProjectedFace :=
  let rotated := cameraSpaceVerts0 env obj scene.camera face.verts
  match calculateCenter rotated with
  | none => none
  | some center =>
    let rawNormal := calculateNormal env rotated
    let objCenterCamera := rotateEuler env obj.position scene.camera.rotation
    let outward := normalize env (subtract center objCenterCamera)
    let normal := if dot rawNormal outward < 0 then multiply rawNormal (-1) else rawNormal
    if normal.z > 0.0001 then none
    else
      let lightIntensity := calculateLighting env normal scene.lights scene.camera.rotation
      some
        { verts := rotated
          projectedVerts := rotated.map fun v => project v w h cfg.fov cfg.cameraZ
          color := applyLightingToColor obj.material.color lightIntensity
          depth := center.z
          lightIntensity := lightIntensity
          objectId := obj.id
          isSelected := decide (some obj.id = scene.selectedObjectId) }

/-- Face collection pass of the earlier renderScene revision. -/
def collectFaces0 (env : Env) (rng : ℕ → ℚ) (scene : Scene) (cfg : EngineConfig)
    (w h : ℚ) : List ProjectedFace :=
  (scene.objects.foldl (fun (acc : List ProjectedFace × ℕ) obj =>
    if obj.visible then
      let faces := generatePrimitiveFaces env obj.type 50 0 (rngShift rng acc.2)
      (acc.1 ++ faces.filterMap (processFace0 env scene cfg w h obj), acc.2 + randCount obj.type)
    else acc) ([], 0)).1

/-- Depth sort of the earlier renderScene revision: Array.prototype.sort
with the comparator (a, b) => a.depth - b.depth, a stable ascending sort. -/
def sortByDepthAsc (faces : List ProjectedFace) : List ProjectedFace :=
  faces.insertionSort (fun a b => a.depth ≤ b.depth)

/-- renderScene from the earlier engine revision: outward-corrected
normals, normal.z culling, ascending depth sort. -/
def renderScene0 (env : Env) (rng : ℕ → ℚ) (scene : Scene) (cfg : EngineConfig)
    (w h : ℚ) : List ProjectedFace :=
  sortByDepthAsc (collectFaces0 env rng scene cfg w h)

-- Specification-side definitions, for comparison with the code

/-- Modelled from the spec (section 4.4): orient the raw face normal
outward — if its dot product with the vector from the object's
camera-space center to the face centroid is negative, negate it. -/
def orientOutward (env : Env) (rawNormal center objCenterCamera : Vec3) : Vec3 :=
  let outward := normalize env (subtract center objCenterCamera)
  if dot rawNormal outward < 0 then multiply rawNormal (-1) else rawNormal

/-- Modelled from the spec (section 4.4): the current renderScene loop body
with the outward orientation step the spec requires inserted before the
view-direction cull test, the oriented normal feeding both the cull and
the lighting.  The object's camera-space center follows the pipeline of
this revision (pan, then camera rotation). -/
def processFaceOriented (env : Env) (scene : Scene) (cfg : EngineConfig) (w h : ℚ)
    (obj : SceneObject) (face : Face) : Option ProjectedFace :=
  let rotated := cameraSpaceVerts env obj scene.camera face.verts
  match calculateCenter rotated with
  | none => none
  | some center =>
    let objCenterCamera := rotateEuler env
      (add obj.position ⟨-scene.camera.position.x, -scene.camera.position.y, 0⟩)
      scene.camera.rotation
    let normal := orientOutward env (calculateNormal env rotated) center objCenterCamera
    let viewDir := normalize env ⟨center.x, center.y, center.z + scene.camera.position.z⟩
    if dot normal viewDir > 0.15 then none
    else
      let lightIntensity := calculateLighting env normal scene.lights scene.camera.rotation
      some
        { verts := rotated
          projectedVerts := rotated.map fun v => project v w h cfg.fov scene.camera.position.z
          color := applyLightingToColor obj.material.color lightIntensity
          depth := center.z
          lightIntensity := lightIntensity
          objectId := obj.id
          isSelected := decide (some obj.id = scene.selectedObjectId) }

/-- Modelled from the spec (section 4.4): renderScene with the outward
orientation step the spec claims precedes the cull test. -/
def renderSceneOriented (env : Env) (rng : ℕ → ℚ) (scene : Scene) (cfg : EngineConfig)
    (w h : ℚ) : List ProjectedFace :=
  sortByDepthDesc ((scene.objects.foldl (fun (acc : List ProjectedFace × ℕ) obj =>
    if obj.visible then
      let faces := generatePrimitiveFaces env obj.type 50 0 (rngShift rng acc.2)
      (acc.1 ++ faces.filterMap (processFaceOriented env scene cfg w h obj),
        acc.2 + randCount obj.type)
    else acc) ([], 0)).1)

-- Concrete inputs used by witnesses and counterexamples

/-- Constant Math.random stream returning 0. -/
def rngZero : ℕ → ℚ := fun _ => 0

/-- Constant Math.random stream returning one half. -/
def rngHalf : ℕ → ℚ := fun _ => 1/2

/-- A concrete material with the default cyan base color. -/
def cyanMaterial : Material := ⟨"mat1", "#00ffff", 0.3, 0.7, 0.5, 32⟩

/-- A concrete camera at distance 500 with no rotation. -/
def defaultCamera : Camera := ⟨⟨0, 0, 500⟩, ⟨0, 0, 0⟩, 60, 1/10, 1000⟩

/-- A concrete box object at the origin with identity transform. -/
def boxObject : SceneObject :=
  ⟨"obj1", "Box", .box, ⟨0, 0, 0⟩, ⟨0, 0, 0⟩, ⟨1, 1, 1⟩, cyanMaterial, true, false⟩

/-- A concrete pyramid object at the origin with identity transform. -/
def pyramidObject : SceneObject :=
  ⟨"obj2", "Pyramid", .pyramid, ⟨0, 0, 0⟩, ⟨0, 0, 0⟩, ⟨1, 1, 1⟩, cyanMaterial, true, false⟩

/-- A concrete engine configuration with fov 800 and camera distance 500. -/
def cfg800 : EngineConfig := ⟨800, 500, 0.3, 0.8, ⟨1, 1, 0.5⟩⟩

/-- A one-box scene with no lights. -/
def boxScene : Scene :=
  ⟨[boxObject], [], defaultCamera, ⟨0, 0, 0⟩, none, true, true, .day⟩

/-- A one-pyramid scene with no lights. -/
def pyramidScene : Scene :=
  ⟨[pyramidObject], [], defaultCamera, ⟨0, 0, 0⟩, none, true, true, .day⟩

-- Helper lemmas

/-- The componentwise foldl sum of calculateCenter is the componentwise
list sum. -/
lemma foldl_vec3_sum (verts : List Vec3) (acc : Vec3) :
    verts.foldl (fun acc v => (⟨acc.x + v.x, acc.y + v.y, acc.z + v.z⟩ : Vec3)) acc =
      ⟨acc.x + (verts.map Vec3.x).sum, acc.y + (verts.map Vec3.y).sum,
       acc.z + (verts.map Vec3.z).sum⟩ := by
  induction verts generalizing acc with
  | nil => obtain ⟨ax, ay, az⟩ := acc; simp
  | cons v vs ih => simp [ih, add_assoc]

/-- Claim C6: for every camera-space vertex, viewport size, fov and camera
distance, project returns x*scale + w/2 and -y*scale + h/2 with
scale = fov/(z + cameraZ) exactly when z + cameraZ > 10, and
scale = fov/10 exactly when z + cameraZ ≤ 10. -/
theorem project_scale_spec (v : Vec3) (w h fov cameraZ : ℚ) :
    (v.z + cameraZ > 10 →
      project v w h fov cameraZ =
        ⟨v.x * (fov / (v.z + cameraZ)) + w / 2, -v.y * (fov / (v.z + cameraZ)) + h / 2,
         fov / (v.z + cameraZ), v.z⟩) ∧
    (v.z + cameraZ ≤ 10 →
      project v w h fov cameraZ =
        ⟨v.x * (fov / 10) + w / 2, -v.y * (fov / 10) + h / 2, fov / 10, v.z⟩) := by
  constructor
  · intro hgt
    simp [project, if_pos hgt]
  · intro hle
    simp [project, if_neg (not_lt.mpr hle)]

/-- Witness for project_scale_spec at a concrete vertex on each side of
the depth floor. -/
theorem project_scale_spec_witness :
    ((0 : ℚ) + 500 > 10 ∧
      project ⟨0, 0, 0⟩ 800 600 800 500 =
        ⟨0 * (800 / ((0 : ℚ) + 500)) + 800 / 2, -(0 : ℚ) * (800 / ((0 : ℚ) + 500)) + 600 / 2,
         800 / ((0 : ℚ) + 500), 0⟩) ∧
    ((-495 : ℚ) + 500 ≤ 10 ∧
      project ⟨0, 0, -495⟩ 800 600 800 500 =
        ⟨0 * ((800 : ℚ) / 10) + 800 / 2, -(0 : ℚ) * ((800 : ℚ) / 10) + 600 / 2,
         (800 : ℚ) / 10, -495⟩) :=
  ⟨⟨by norm_num, (project_scale_spec ⟨0, 0, 0⟩ 800 600 800 500).1 (by norm_num)⟩,
   ⟨by norm_num, (project_scale_spec ⟨0, 0, -495⟩ 800 600 800 500).2 (by norm_num)⟩⟩

/-- Claim C7 (amended): for every intensity and every color string whose
length after stripping the first hash is not 6, applyLightingToColor
returns the original string unchanged; length-6 strings always enter the
hex-parsing path, so a length-6 non-hex string is not returned unchanged
(see the counterexample). -/
theorem applyLightingToColor_malformed (color : String) (intensity : ℚ)
    (hlen : (removeFirstHash color).length ≠ 6) :
    applyLightingToColor color intensity = color := by
  simp [applyLightingToColor, hlen]

/-- Witness for applyLightingToColor_malformed on a non-hex CSS color
name. -/
theorem applyLightingToColor_malformed_witness :
    (removeFirstHash "red").length ≠ 6 ∧ applyLightingToColor "red" (1/2) = "red" :=
  ⟨by decide, applyLightingToColor_malformed "red" (1/2) (by decide)⟩

/-- Counterexample to claim C7 as stated: the six-character non-hex string
zzzzzz is not returned unchanged — parseInt yields NaN on each byte field
and the function returns the mangled rgb(NaN, NaN, NaN). -/
theorem applyLightingToColor_nonhex_counterexample :
    applyLightingToColor "zzzzzz" 1 = "rgb(NaN, NaN, NaN)" ∧
    applyLightingToColor "zzzzzz" 1 ≠ "zzzzzz" := by
  constructor <;> with_unfolding_all decide

/-- Claim C9 (amended): the lighting extremes on white produce the rgb
strings with the comma-space separator that the template literal emits:
rgb(51, 51, 51) at intensity 0 and rgb(255, 255, 255) at intensity 1. -/
theorem applyLightingToColor_extremes :
    applyLightingToColor "#ffffff" 0 = "rgb(51, 51, 51)" ∧
    applyLightingToColor "#ffffff" 1 = "rgb(255, 255, 255)" := by
  constructor <;> with_unfolding_all decide

/-- Counterexample to claim C9 as stated: the template contains a space
after each comma, so the result at intensity 0 is not the exact string
rgb(51,51,51). -/
theorem applyLightingToColor_extremes_counterexample :
    applyLightingToColor "#ffffff" 0 ≠ "rgb(51,51,51)" := by
  with_unfolding_all decide

/-- Claim C10: calculateCenter returns the componentwise arithmetic mean
for every non-empty vertex list, divides by zero (modelled as none) on the
empty list, and so needs the non-emptiness precondition, unlike normalize
and calculateNormal which guard their degenerate inputs. -/
theorem calculateCenter_mean_requires_nonempty :
    (∀ verts : List Vec3, verts ≠ [] →
      calculateCenter verts =
        some (divide ⟨(verts.map Vec3.x).sum, (verts.map Vec3.y).sum, (verts.map Vec3.z).sum⟩
          (verts.length : ℚ))) ∧
    calculateCenter [] = none ∧
    (∀ env : Env, normalize env ⟨0, 0, 0⟩ = ⟨0, 0, 0⟩) ∧
    (∀ (env : Env) (verts : List Vec3), verts.length < 3 →
      calculateNormal env verts = ⟨0, 0, 1⟩) := by
  refine ⟨?_, rfl, ?_, ?_⟩
  · intro verts hne
    have hlen : verts.length ≠ 0 := by simpa using hne
    simp [calculateCenter, hlen, foldl_vec3_sum]
  · intro env
    have hlen : length env ⟨0, 0, 0⟩ = 0 := by
      have : ((0 : ℚ) * 0 + 0 * 0 + 0 * 0) = 0 := by norm_num
      simp only [length, this, env.sqrt_zero]
    simp [normalize, hlen]
  · intro env verts hlt
    match verts with
    | [] => rfl
    | [a] => rfl
    | [a, b] => rfl
    | a :: b :: c :: rest => simp at hlt; omega

/-- Witness for calculateCenter_mean_requires_nonempty at a concrete
two-vertex list whose mean is (2, 2, 2). -/
theorem calculateCenter_mean_witness :
    calculateCenter [⟨1, 2, 3⟩, ⟨3, 2, 1⟩] = some ⟨2, 2, 2⟩ :=
  (calculateCenter_mean_requires_nonempty.1 [⟨1, 2, 3⟩, ⟨3, 2, 1⟩] (by decide)).trans
    (by with_unfolding_all decide)

/-- Every generator other than cloudVolume ignores the Math.random
stream. -/
lemma generatePrimitiveFaces_rng_indep (env : Env) (type : PrimitiveType) (size time : ℚ)
    (rng1 rng2 : ℕ → ℚ) (hne : type ≠ PrimitiveType.cloudVolume) :
    generatePrimitiveFaces env type size time rng1 =
      generatePrimitiveFaces env type size time rng2 := by
  cases type
  case cloudVolume => exact absurd rfl hne
  all_goals rfl

/-- One collection step is independent of the Math.random stream when the
object is not a cloudVolume. -/
lemma collectStep_rng_indep (env : Env) (scene : Scene) (cfg : EngineConfig) (w h : ℚ)
    (rng1 rng2 : ℕ → ℚ) (acc : List ProjectedFace × ℕ) (o : SceneObject)
    (ho : o.type ≠ PrimitiveType.cloudVolume) :
    collectStep env rng1 scene cfg w h acc o = collectStep env rng2 scene cfg w h acc o := by
  unfold collectStep
  cases hv : o.visible
  · simp only [hv, Bool.false_eq_true, if_false]
  · simp only [hv, if_true]
    rw [generatePrimitiveFaces_rng_indep env o.type 50 0 (rngShift rng1 acc.2)
      (rngShift rng2 acc.2) ho]

/-- The whole object fold is independent of the Math.random stream when no
object is a cloudVolume. -/
lemma foldl_rng_indep (env : Env) (scene : Scene) (cfg : EngineConfig) (w h : ℚ)
    (rng1 rng2 : ℕ → ℚ) (objs : List SceneObject) (acc : List ProjectedFace × ℕ)
    (hall : ∀ obj ∈ objs, obj.type ≠ PrimitiveType.cloudVolume) :
    objs.foldl (collectStep env rng1 scene cfg w h) acc =
      objs.foldl (collectStep env rng2 scene cfg w h) acc :=
  List.foldl_ext _ _ acc fun a obj hm =>
    collectStep_rng_indep env scene cfg w h rng1 rng2 a obj (hall obj hm)

/-- Claim C1 (amended): generation is deterministic — independent of the
Math.random stream — for every primitive kind except cloudVolume, whose
puff radii read the stream; consequently renderScene is deterministic on
every scene none of whose objects is a cloudVolume. -/
theorem generation_deterministic_except_cloudVolume :
    (∀ (env : Env) (type : PrimitiveType) (size time : ℚ) (rng1 rng2 : ℕ → ℚ),
      type ≠ PrimitiveType.cloudVolume →
      generatePrimitiveFaces env type size time rng1 =
        generatePrimitiveFaces env type size time rng2) ∧
    (∀ (env : Env) (scene : Scene) (cfg : EngineConfig) (w h : ℚ) (rng1 rng2 : ℕ → ℚ),
      (∀ obj ∈ scene.objects, obj.type ≠ PrimitiveType.cloudVolume) →
      renderScene env rng1 scene cfg w h = renderScene env rng2 scene cfg w h) := by
  refine ⟨generatePrimitiveFaces_rng_indep, ?_⟩
  intro env scene cfg w h rng1 rng2 hobjs
  exact congrArg (fun p => sortByDepthDesc p.1)
    (foldl_rng_indep env scene cfg w h rng1 rng2 scene.objects ([], 0) hobjs)

/-- Witness for generation_deterministic_except_cloudVolume at the box
kind and a concrete one-box scene. -/
theorem generation_deterministic_witness :
    (PrimitiveType.box ≠ PrimitiveType.cloudVolume ∧
      generatePrimitiveFaces env₀ PrimitiveType.box 50 0 rngZero =
        generatePrimitiveFaces env₀ PrimitiveType.box 50 0 rngHalf) ∧
    ((∀ obj ∈ boxScene.objects, obj.type ≠ PrimitiveType.cloudVolume) ∧
      renderScene env₀ rngZero boxScene cfg800 800 600 =
        renderScene env₀ rngHalf boxScene cfg800 800 600) :=
  ⟨⟨by decide,
    generation_deterministic_except_cloudVolume.1 env₀ PrimitiveType.box 50 0 rngZero rngHalf
      (by decide)⟩,
   ⟨by decide,
    generation_deterministic_except_cloudVolume.2 env₀ boxScene cfg800 800 600 rngZero rngHalf
      (by decide)⟩⟩

/-- Counterexample to claim C1 as stated: two runs of the cloudVolume
generator with identical (kind, size, time) arguments but different
Math.random draws return different face lists, so mesh generation is not
deterministic for every primitive kind. -/
theorem cloudVolume_nondeterministic_counterexample :
    generatePrimitiveFaces env₀ PrimitiveType.cloudVolume 80 0 rngZero ≠
      generatePrimitiveFaces env₀ PrimitiveType.cloudVolume 80 0 rngHalf := by
  have hhead : (generatePrimitiveFaces env₀ PrimitiveType.cloudVolume 80 0 rngZero).head? ≠
      (generatePrimitiveFaces env₀ PrimitiveType.cloudVolume 80 0 rngHalf).head? := by
    with_unfolding_all decide
  exact fun h => hhead (congrArg List.head? h)

/-- Claim C3: the renderScene revisions in the repository take no
animation-time parameter; the fifth animationTime argument the Viewport
passes is silently dropped, so the output is identical at any two time
values even though the fluidBlob generator itself distinguishes the times
(second conjunct, under an environment with injective sine). -/
theorem renderScene_drops_animation_time :
    (∀ (env : Env) (rng : ℕ → ℚ) (scene : Scene) (cfg : EngineConfig) (w h t1 t2 : ℚ),
      renderSceneViewportCall env rng scene cfg w h t1 =
        renderSceneViewportCall env rng scene cfg w h t2) ∧
    generateFluidBlob envId 50 8 0 ≠ generateFluidBlob envId 50 8 1 := by
  constructor
  · intro env rng scene cfg w h t1 t2
    rfl
  · have hhead : (generateFluidBlob envId 50 8 0).head? ≠ (generateFluidBlob envId 50 8 1).head? := by
      with_unfolding_all decide
    exact fun h => hhead (congrArg List.head? h)

/-- Claim C4: a face processed by renderScene is kept exactly when the dot
product of its normal with the normalized view direction from the camera
to the face centroid is at most the inclusive threshold 0.15; a face at
dot -1 is always kept and a face at dot 1 is always dropped. -/
theorem visibility_dot_threshold (env : Env) (scene : Scene) (cfg : EngineConfig)
    (w h : ℚ) (obj : SceneObject) (face : Face) (center : Vec3)
    (hc : calculateCenter (cameraSpaceVerts env obj scene.camera face.verts) = some center) :
    ((processFace env scene cfg w h obj face).isSome ↔
      faceDotProduct env scene.camera (cameraSpaceVerts env obj scene.camera face.verts) center
        ≤ 0.15) ∧
    (faceDotProduct env scene.camera (cameraSpaceVerts env obj scene.camera face.verts) center
        = -1 → (processFace env scene cfg w h obj face).isSome) ∧
    (faceDotProduct env scene.camera (cameraSpaceVerts env obj scene.camera face.verts) center
        = 1 → (processFace env scene cfg w h obj face).isSome = false) := by
  have hmain : (processFace env scene cfg w h obj face).isSome = true ↔
      faceDotProduct env scene.camera (cameraSpaceVerts env obj scene.camera face.verts) center
        ≤ 0.15 := by
    unfold processFace
    dsimp only
    rw [hc]
    dsimp only
    by_cases hd : faceDotProduct env scene.camera
        (cameraSpaceVerts env obj scene.camera face.verts) center > 0.15
    · rw [if_pos hd]
      exact iff_of_false (by simp) (not_le.mpr hd)
    · rw [if_neg hd]
      exact iff_of_true rfl (not_lt.mp hd)
  refine ⟨hmain, fun hneg => hmain.mpr ?_, fun hone => ?_⟩
  · rw [hneg]; norm_num
  · rw [Bool.eq_false_iff]
    intro hsome
    have := hmain.mp hsome
    rw [hone] at this
    norm_num at this

/-- Witness for visibility_dot_threshold: the front face of the default
box faces directly away from the camera (dot exactly 1) and is dropped. -/
theorem visibility_dot_threshold_witness :
    calculateCenter (cameraSpaceVerts env₀ boxObject boxScene.camera
        [⟨-25, -25, 25⟩, ⟨25, -25, 25⟩, ⟨25, 25, 25⟩, ⟨-25, 25, 25⟩]) = some ⟨0, 0, 25⟩ ∧
    faceDotProduct env₀ boxScene.camera (cameraSpaceVerts env₀ boxObject boxScene.camera
        [⟨-25, -25, 25⟩, ⟨25, -25, 25⟩, ⟨25, 25, 25⟩, ⟨-25, 25, 25⟩]) ⟨0, 0, 25⟩ = 1 ∧
    (processFace env₀ boxScene cfg800 800 600 boxObject
        ⟨[⟨-25, -25, 25⟩, ⟨25, -25, 25⟩, ⟨25, 25, 25⟩, ⟨-25, 25, 25⟩], "#00ffff"⟩).isSome
      = false := by
  have hc : calculateCenter (cameraSpaceVerts env₀ boxObject boxScene.camera
      [⟨-25, -25, 25⟩, ⟨25, -25, 25⟩, ⟨25, 25, 25⟩, ⟨-25, 25, 25⟩]) = some ⟨0, 0, 25⟩ := by
    with_unfolding_all decide
  have hone : faceDotProduct env₀ boxScene.camera (cameraSpaceVerts env₀ boxObject
      boxScene.camera [⟨-25, -25, 25⟩, ⟨25, -25, 25⟩, ⟨25, 25, 25⟩, ⟨-25, 25, 25⟩])
      ⟨0, 0, 25⟩ = 1 := by
    with_unfolding_all decide
  exact ⟨hc, hone,
    (visibility_dot_threshold env₀ boxScene cfg800 800 600 boxObject
      ⟨[⟨-25, -25, 25⟩, ⟨25, -25, 25⟩, ⟨25, 25, 25⟩, ⟨-25, 25, 25⟩], "#00ffff"⟩
      ⟨0, 0, 25⟩ hc).2.2 hone⟩

/-- Claim C5 (amended): the outward orientation of the raw normal before
the cull test exists only in the earlier renderScene revision, where the
oriented normal feeds both the normal.z cull and the lighting; the current
renderScene revision uses the raw normal directly (see the
counterexample). -/
theorem orientation_in_earlier_revision (env : Env) (scene : Scene) (cfg : EngineConfig)
    (w h : ℚ) (obj : SceneObject) (face : Face) (center : Vec3)
    (hc : calculateCenter (cameraSpaceVerts0 env obj scene.camera face.verts) = some center) :
    ((processFace0 env scene cfg w h obj face).isSome ↔
      (orientOutward env (calculateNormal env (cameraSpaceVerts0 env obj scene.camera face.verts))
        center (rotateEuler env obj.position scene.camera.rotation)).z ≤ 0.0001) ∧
    (∀ pf, processFace0 env scene cfg w h obj face = some pf →
      pf.lightIntensity = calculateLighting env
        (orientOutward env (calculateNormal env (cameraSpaceVerts0 env obj scene.camera face.verts))
          center (rotateEuler env obj.position scene.camera.rotation))
        scene.lights scene.camera.rotation) := by
  unfold processFace0 orientOutward
  dsimp only
  rw [hc]
  dsimp only
  by_cases hz : (if dot (calculateNormal env (cameraSpaceVerts0 env obj scene.camera face.verts))
      (normalize env (subtract center (rotateEuler env obj.position scene.camera.rotation))) < 0
    then multiply (calculateNormal env (cameraSpaceVerts0 env obj scene.camera face.verts)) (-1)
    else calculateNormal env (cameraSpaceVerts0 env obj scene.camera face.verts)).z > 0.0001
  · rw [if_pos hz]
    exact ⟨iff_of_false (by simp) (not_le.mpr hz), fun pf hpf => absurd hpf (by simp)⟩
  · rw [if_neg hz]
    refine ⟨iff_of_true rfl (not_lt.mp hz), fun pf hpf => ?_⟩
    obtain rfl := Option.some.inj hpf
    rfl

/-- Witness for orientation_in_earlier_revision: the front face of the
default pyramid has an inward-winding raw normal; its outward-oriented
normal points toward positive z, so the earlier revision culls it. -/
theorem orientation_in_earlier_revision_witness :
    calculateCenter (cameraSpaceVerts0 env₀ pyramidObject pyramidScene.camera
        [⟨0, 35, 0⟩, ⟨25, -35, 25⟩, ⟨-25, -35, 25⟩]) = some ⟨0, -35/3, 50/3⟩ ∧
    ((processFace0 env₀ pyramidScene cfg800 800 600 pyramidObject
        ⟨[⟨0, 35, 0⟩, ⟨25, -35, 25⟩, ⟨-25, -35, 25⟩], "#00ffdd"⟩).isSome ↔
      (orientOutward env₀ (calculateNormal env₀ (cameraSpaceVerts0 env₀ pyramidObject
          pyramidScene.camera [⟨0, 35, 0⟩, ⟨25, -35, 25⟩, ⟨-25, -35, 25⟩]))
        ⟨0, -35/3, 50/3⟩
        (rotateEuler env₀ pyramidObject.position pyramidScene.camera.rotation)).z ≤ 0.0001) := by
  have hc : calculateCenter (cameraSpaceVerts0 env₀ pyramidObject pyramidScene.camera
      [⟨0, 35, 0⟩, ⟨25, -35, 25⟩, ⟨-25, -35, 25⟩]) = some ⟨0, -35/3, 50/3⟩ := by
    with_unfolding_all decide
  exact ⟨hc,
    (orientation_in_earlier_revision env₀ pyramidScene cfg800 800 600 pyramidObject
      ⟨[⟨0, 35, 0⟩, ⟨25, -35, 25⟩, ⟨-25, -35, 25⟩], "#00ffdd"⟩ ⟨0, -35/3, 50/3⟩ hc).1⟩

/-- Counterexample to claim C5 as stated: on a concrete pyramid scene the
current renderScene disagrees with its spec-side variant that orients
normals outward before the cull — the code keeps the inward-winding front
face that the claimed orientation step would cull (and culls the back face
the orientation step would keep). -/
theorem renderScene_unoriented_counterexample :
    renderScene env₀ rngZero pyramidScene cfg800 800 600 ≠
      renderSceneOriented env₀ rngZero pyramidScene cfg800 800 600 := by
  have hdep : (renderScene env₀ rngZero pyramidScene cfg800 800 600).map (fun f => f.depth) ≠
      (renderSceneOriented env₀ rngZero pyramidScene cfg800 800 600).map (fun f => f.depth) := by
    with_unfolding_all decide
  exact fun h => hdep (congrArg (List.map (fun f => f.depth)) h)


lemma mem_collect_aux (env : Env) (rng : ℕ → ℚ) (scene : Scene) (cfg : EngineConfig)
    (w h : ℚ) (pf : ProjectedFace) :
    ∀ (objs : List SceneObject) (acc : List ProjectedFace × ℕ),
      pf ∈ (objs.foldl (collectStep env rng scene cfg w h) acc).1 →
      pf ∈ acc.1 ∨ ∃ obj face, processFace env scene cfg w h obj face = some pf := by
  intro objs
  induction objs with
  | nil => intro acc hmem; exact Or.inl hmem
  | cons o os ih =>
    intro acc hmem
    rw [List.foldl_cons] at hmem
    rcases ih (collectStep env rng scene cfg w h acc o) hmem with hin | hex
    · unfold collectStep at hin
      cases hv : o.visible
      · rw [hv] at hin
        simp only [Bool.false_eq_true, if_false] at hin
        exact Or.inl hin
      · rw [hv] at hin
        simp only [if_true] at hin
        rcases List.mem_append.mp hin with hold | hnew
        · exact Or.inl hold
        · rcases List.mem_filterMap.mp hnew with ⟨face, _, hsome⟩
          exact Or.inr ⟨o, face, hsome⟩
    · exact Or.inr hex


lemma foldl_lightStep_nonneg (env : Env) (normal camRot : Vec3) :
    ∀ (lights : List Light) (acc : ℚ), 0 ≤ acc → (∀ l ∈ lights, 0 ≤ l.intensity) →
      0 ≤ lights.foldl (lightStep env normal camRot) acc := by
  intro lights
  induction lights with
  | nil => intro acc hacc _; simpa using hacc
  | cons l ls ih =>
    intro acc hacc hall
    rw [List.foldl_cons]
    refine ih _ ?_ (fun x hx => hall x (List.mem_cons_of_mem l hx))
    have hl := hall l (List.mem_cons_self l ls)
    obtain ⟨t, c, i, d, p⟩ := l
    cases t <;> cases d <;>
      simp only [lightStep] <;>
      first
        | exact hacc
        | exact add_nonneg hacc hl
        | exact add_nonneg hacc (mul_nonneg (le_max_left 0 _) hl)

lemma processFace_some_lightIntensity {env : Env} {scene : Scene} {cfg : EngineConfig}
    {w h : ℚ} {obj : SceneObject} {face : Face} {pf : ProjectedFace}
    (hp : processFace env scene cfg w h obj face = some pf) :
    ∃ normal, pf.lightIntensity = calculateLighting env normal scene.lights
      scene.camera.rotation := by
  unfold processFace at hp
  dsimp only at hp
  cases hcv : calculateCenter (cameraSpaceVerts env obj scene.camera face.verts) with
  | none => rw [hcv] at hp; exact absurd hp (by simp)
  | some c =>
    rw [hcv] at hp
    dsimp only at hp
    by_cases hd : faceDotProduct env scene.camera
        (cameraSpaceVerts env obj scene.camera face.verts) c > 0.15
    · rw [if_pos hd] at hp
      exact absurd hp (by simp)
    · rw [if_neg hd] at hp
      obtain rfl := Option.some.inj hp
      exact ⟨_, rfl⟩

lemma processFace_some_depth {env : Env} {scene : Scene} {cfg : EngineConfig}
    {w h : ℚ} {obj : SceneObject} {face : Face} {pf : ProjectedFace}
    (hp : processFace env scene cfg w h obj face = some pf) :
    ∃ c, calculateCenter pf.verts = some c ∧ pf.depth = c.z := by
  unfold processFace at hp
  dsimp only at hp
  cases hcv : calculateCenter (cameraSpaceVerts env obj scene.camera face.verts) with
  | none => rw [hcv] at hp; exact absurd hp (by simp)
  | some c =>
    rw [hcv] at hp
    dsimp only at hp
    by_cases hd : faceDotProduct env scene.camera
        (cameraSpaceVerts env obj scene.camera face.verts) c > 0.15
    · rw [if_pos hd] at hp
      exact absurd hp (by simp)
    · rw [if_neg hd] at hp
      obtain rfl := Option.some.inj hp
      exact ⟨c, hcv, rfl⟩

/-- Claim C8 (amended): when every light in the list has nonnegative
intensity, calculateLighting lies in the closed interval from 0 to 1, and
every face renderScene outputs carries a lightIntensity in that interval;
with a negative intensity the lower clamp does not exist (see the
counterexample). -/
theorem lighting_clamped_for_nonneg_lights :
    (∀ (env : Env) (normal : Vec3) (lights : List Light) (camRot : Vec3),
      (∀ l ∈ lights, 0 ≤ l.intensity) →
      0 ≤ calculateLighting env normal lights camRot ∧
        calculateLighting env normal lights camRot ≤ 1) ∧
    (∀ (env : Env) (rng : ℕ → ℚ) (scene : Scene) (cfg : EngineConfig) (w h : ℚ),
      (∀ l ∈ scene.lights, 0 ≤ l.intensity) →
      ∀ pf ∈ renderScene env rng scene cfg w h,
        0 ≤ pf.lightIntensity ∧ pf.lightIntensity ≤ 1) := by
  have hbounds : ∀ (env : Env) (normal : Vec3) (lights : List Light) (camRot : Vec3),
      (∀ l ∈ lights, 0 ≤ l.intensity) →
      0 ≤ calculateLighting env normal lights camRot ∧
        calculateLighting env normal lights camRot ≤ 1 := by
    intro env normal lights camRot hall
    unfold calculateLighting
    exact ⟨le_min (by norm_num) (foldl_lightStep_nonneg env normal camRot lights 0 le_rfl hall),
      min_le_left _ _⟩
  refine ⟨hbounds, ?_⟩
  intro env rng scene cfg w h hall pf hpf
  have hmem : pf ∈ collectFaces env rng scene cfg w h := by
    unfold renderScene sortByDepthDesc at hpf
    exact (List.mem_insertionSort _).mp hpf
  rcases mem_collect_aux env rng scene cfg w h pf scene.objects ([], 0) hmem with hin | hex
  · simp at hin
  · rcases hex with ⟨obj, face, hsome⟩
    rcases processFace_some_lightIntensity hsome with ⟨normal, hli⟩
    rw [hli]
    exact hbounds env normal scene.lights scene.camera.rotation hall

/-- Witness for lighting_clamped_for_nonneg_lights on the built-in day
lights and on the output of a concrete lit box scene. -/
theorem lighting_clamped_witness :
    ((∀ l ∈ getLightsForMode LightingMode.day, 0 ≤ l.intensity) ∧
      (0 ≤ calculateLighting env₀ ⟨0, 0, -1⟩ (getLightsForMode LightingMode.day) ⟨0, 0, 0⟩ ∧
        calculateLighting env₀ ⟨0, 0, -1⟩ (getLightsForMode LightingMode.day) ⟨0, 0, 0⟩ ≤ 1)) :=
  ⟨by with_unfolding_all decide,
   lighting_clamped_for_nonneg_lights.1 env₀ ⟨0, 0, -1⟩ (getLightsForMode LightingMode.day)
     ⟨0, 0, 0⟩ (by with_unfolding_all decide)⟩

/-- Counterexample to claim C8 as stated: with an ambient light of
intensity -1, calculateLighting returns -1, outside the unit interval, for
the code only takes min with 1 and never clamps below. -/
theorem lighting_negative_counterexample :
    calculateLighting env₀ ⟨0, 0, 1⟩ [⟨LightType.ambient, "#ffffff", -1, none, none⟩]
        ⟨0, 0, 0⟩ = -1 ∧
    ¬ (0 ≤ calculateLighting env₀ ⟨0, 0, 1⟩ [⟨LightType.ambient, "#ffffff", -1, none, none⟩]
        ⟨0, 0, 0⟩) := by
  constructor <;> with_unfolding_all decide


/-- Claim C2 (amended): renderScene returns the stable sort of the
collected faces by their depth key — the camera-space z coordinate of the
face centroid — farthest first, which under the projector convention
(camera at z = -cameraZ looking toward positive z) means descending by
signed depth, not ascending: every output face's depth is the z of its
centroid, the output is pairwise descending, a permutation of the
collected faces, and faces of every fixed depth keep their generation
order. -/
theorem renderScene_stable_descending_sort (env : Env) (rng : ℕ → ℚ) (scene : Scene)
    (cfg : EngineConfig) (w h : ℚ) :
    (∀ pf ∈ renderScene env rng scene cfg w h,
      ∃ c, calculateCenter pf.verts = some c ∧ pf.depth = c.z) ∧
    (renderScene env rng scene cfg w h).Pairwise (fun a b => b.depth ≤ a.depth) ∧
    (renderScene env rng scene cfg w h).Perm (collectFaces env rng scene cfg w h) ∧
    ∀ d : ℚ, (renderScene env rng scene cfg w h).filter (fun f => decide (f.depth = d)) =
      (collectFaces env rng scene cfg w h).filter (fun f => decide (f.depth = d)) := by
  haveI : IsTotal ProjectedFace (fun a b => b.depth ≤ a.depth) :=
    ⟨fun a b => le_total b.depth a.depth⟩
  haveI : IsTrans ProjectedFace (fun a b => b.depth ≤ a.depth) :=
    ⟨fun a b c hab hbc => le_trans hbc hab⟩
  have hdepth : ∀ pf ∈ renderScene env rng scene cfg w h,
      ∃ c, calculateCenter pf.verts = some c ∧ pf.depth = c.z := by
    intro pf hpf
    have hmem : pf ∈ collectFaces env rng scene cfg w h := by
      unfold renderScene sortByDepthDesc at hpf
      exact (List.mem_insertionSort _).mp hpf
    rcases mem_collect_aux env rng scene cfg w h pf scene.objects ([], 0) hmem with hin | hex
    · simp at hin
    · rcases hex with ⟨obj, face, hsome⟩
      exact processFace_some_depth hsome
  unfold renderScene sortByDepthDesc
  refine ⟨hdepth, List.sorted_insertionSort _ _, List.perm_insertionSort _ _, fun d => ?_⟩
  have hpw : (List.filter (fun f => decide (f.depth = d))
      (collectFaces env rng scene cfg w h)).Pairwise (fun a b => b.depth ≤ a.depth) := by
    refine List.pairwise_of_forall_mem_list fun a ha b hb => ?_
    have had : a.depth = d := of_decide_eq_true (List.mem_filter.mp ha).2
    have hbd : b.depth = d := of_decide_eq_true (List.mem_filter.mp hb).2
    rw [had, hbd]
  have hsub : List.Sublist
      (List.filter (fun f => decide (f.depth = d)) (collectFaces env rng scene cfg w h))
      (List.insertionSort (fun a b => b.depth ≤ a.depth) (collectFaces env rng scene cfg w h)) :=
    List.sublist_insertionSort hpw (List.filter_sublist _)
  have hself : List.filter (fun f => decide (f.depth = d))
      (List.filter (fun f => decide (f.depth = d)) (collectFaces env rng scene cfg w h)) =
      List.filter (fun f => decide (f.depth = d)) (collectFaces env rng scene cfg w h) :=
    List.filter_eq_self.mpr fun a ha => (List.mem_filter.mp ha).2
  have hsubf : List.Sublist
      (List.filter (fun f => decide (f.depth = d)) (collectFaces env rng scene cfg w h))
      (List.filter (fun f => decide (f.depth = d))
        (List.insertionSort (fun a b => b.depth ≤ a.depth)
          (collectFaces env rng scene cfg w h))) :=
    hself ▸ hsub.filter _
  have hlen : (List.filter (fun f => decide (f.depth = d))
        (List.insertionSort (fun a b => b.depth ≤ a.depth)
          (collectFaces env rng scene cfg w h))).length =
      (List.filter (fun f => decide (f.depth = d)) (collectFaces env rng scene cfg w h)).length :=
    ((List.perm_insertionSort _ _).filter _).length_eq
  exact (hsubf.eq_of_length hlen.symm).symm

/-- Witness for renderScene_stable_descending_sort on a concrete one-box
scene, instantiating the stability conjunct at depth 0 and the sortedness
conjunct. -/
theorem renderScene_stable_descending_sort_witness :
    (renderScene env₀ rngZero boxScene cfg800 800 600).filter (fun f => decide (f.depth = 0)) =
      (collectFaces env₀ rngZero boxScene cfg800 800 600).filter (fun f => decide (f.depth = 0)) ∧
    (renderScene env₀ rngZero boxScene cfg800 800 600).Pairwise (fun a b => b.depth ≤ a.depth) :=
  ⟨(renderScene_stable_descending_sort env₀ rngZero boxScene cfg800 800 600).2.2.2 0,
   (renderScene_stable_descending_sort env₀ rngZero boxScene cfg800 800 600).2.1⟩

/-- Counterexample to claim C2 as stated: on a concrete one-box scene the
output depths are 0, 0, 0, 0, -25 — descending, farthest (largest z)
first — so the output is not ascending by signed camera-space z. -/
theorem renderScene_not_ascending_counterexample :
    (renderScene env₀ rngZero boxScene cfg800 800 600).map (fun f => f.depth) =
      [0, 0, 0, 0, -25] ∧
    ¬ ((renderScene env₀ rngZero boxScene cfg800 800 600).map
        (fun f => f.depth)).Pairwise (fun a b => a ≤ b) := by
  constructor <;> with_unfolding_all decide

end Epic3D
